import Mathlib

/-!
Verification of the gemini-imagen MCP server (the tool-invocation pipeline of
`index.ts`, in its extended revision carrying the four optional parameters).

The embedding models the dynamically-typed argument object from the transport
as a `JSValue`, the upstream image-generation service as an oracle function,
the wall clock (`Date.now()`) as a function from the sequence number of the
clock read to the returned millisecond value, and the file system side effect
as the ordered trace of write calls performed by the handler.
-/

namespace GeminiImagen

/-- A JavaScript value, as far as the server's handler can observe one.
Numbers are modelled as integers: the handler only ever applies `typeof`
and truthiness (`|| default`) to them, and no claim depends on non-integral
or NaN numbers. An object is its (own, enumerable) fields in order. -/
inductive JSValue where
  | str (s : String)
  | num (n : Int)
  | bool (b : Bool)
  | null
  | undefined
  | obj (fields : List (String × JSValue))

/-- JavaScript `typeof`. Note `typeof null === "object"`, as in the language. -/
def jsTypeof : JSValue → String
  | .str _ => "string"
  | .num _ => "number"
  | .bool _ => "boolean"
  | .null => "object"
  | .undefined => "undefined"
  | .obj _ => "object"

/-- Strict comparison with `null` (`args !== null`). -/
def isNull : JSValue → Bool
  | .null => true
  | _ => false

/-- Strict comparison with `undefined` (`x === undefined`); property access on
an object that lacks the key also yields `undefined`, so this test is exactly
"the field is absent or explicitly undefined". -/
def isUndefined : JSValue → Bool
  | .undefined => true
  | _ => false

/-- Property access `v.key`: on an object, the first field of that name, else
`undefined`; on a primitive or `undefined`/`null` the handler never reaches a
property access without a preceding `typeof` guard, so `undefined` is a safe
model there. -/
def getField (v : JSValue) (key : String) : JSValue :=
  match v with
  | .obj fields =>
    match fields.lookup key with
    | some w => w
    | none => .undefined
  | _ => .undefined

/-- JavaScript truthiness, restricted to the values of the model: empty
string, `0`, `false`, `null`, `undefined` are falsy; objects are truthy. -/
def jsTruthy : JSValue → Bool
  | .str s => !s.isEmpty
  | .num n => n != 0
  | .bool b => b
  | .null => false
  | .undefined => false
  | .obj _ => true

/-- The `x || d` defaulting idiom: `x` when truthy, otherwise `d`. -/
def jsOr (v d : JSValue) : JSValue :=
  if jsTruthy v then v else d

/-- `isValidGenerateImageArgs` from `index.ts`: a non-null object whose
`prompt` is a string, and whose optional fields, when present (not
`undefined`), have the declared primitive type. -/
def isValidGenerateImageArgs (args : JSValue) : Bool :=
  (jsTypeof args == "object") &&
  (!isNull args) &&
  (jsTypeof (getField args "prompt") == "string") &&
  (isUndefined (getField args "numberOfImages") || jsTypeof (getField args "numberOfImages") == "number") &&
  (isUndefined (getField args "aspectRatio") || jsTypeof (getField args "aspectRatio") == "string") &&
  (isUndefined (getField args "sampleImageSize") || jsTypeof (getField args "sampleImageSize") == "string") &&
  (isUndefined (getField args "personGeneration") || jsTypeof (getField args "personGeneration") == "string")

/-- The protocol error codes used by the server. -/
inductive ErrorCode where
  | MethodNotFound
  | InvalidParams
  | InternalError
deriving DecidableEq

/-- A protocol-shaped (`McpError`) error: a machine-readable code and a
human-readable message. -/
structure McpError where
  code : ErrorCode
  message : String
deriving DecidableEq

/-- An error thrown inside the handler's `try` block: either already a
protocol-shaped `McpError`, or a generic failure carrying its message
(`error.message`, or `String(error)` for a non-`Error` throw). -/
inductive ThrownError where
  | mcp (e : McpError)
  | generic (message : String)

/-- The `image` object of one upstream result element, holding the
base64-encoded payload `imageBytes`. -/
structure ImagePayload where
  imageBytes : String

/-- One element of the upstream service's `generatedImages` list. -/
structure GeneratedImage where
  image : ImagePayload

/-- The upstream response: `generatedImages` may be absent (`none`) or a list
of image payloads. -/
structure UpstreamResponse where
  generatedImages : Option (List GeneratedImage)

/-- The request the handler sends upstream: the fixed model identifier, the
caller's prompt value, and the configuration object (ordered key/value list,
mirroring the object literal built in the handler). -/
structure UpstreamRequest where
  model : String
  prompt : JSValue
  config : List (String × JSValue)

/-- The value of one base64 alphabet character, `none` for characters outside
the alphabet (Node's decoder skips those, and `=` padding carries no data). -/
def b64Val (c : Char) : Option Nat :=
  let n := c.toNat
  if 65 ≤ n ∧ n ≤ 90 then some (n - 65)
  else if 97 ≤ n ∧ n ≤ 122 then some (n - 97 + 26)
  else if 48 ≤ n ∧ n ≤ 57 then some (n - 48 + 52)
  else if n = 43 then some 62
  else if n = 47 then some 63
  else none

/-- Reassemble 6-bit groups into bytes, dropping the final partial byte as the
base64 decoding does. -/
def b64Bytes : List Nat → List Nat
  | a :: b :: c :: d :: rest =>
    (a * 4 + b / 16) :: ((b % 16) * 16 + c / 4) :: ((c % 4) * 64 + d) :: b64Bytes rest
  | [a, b] => [a * 4 + b / 16]
  | [a, b, c] => [a * 4 + b / 16, (b % 16) * 16 + c / 4]
  | _ => []

/-- `Buffer.from(imageData, "base64")`: the decoded bytes of the payload. -/
def bufferFromBase64 (s : String) : List Nat :=
  b64Bytes (s.toList.filterMap b64Val)

/-- The file path `/tmp/generated_image_<timestamp>_<index>.png` built for one
write of the persistence loop. -/
def imagePath (timestamp index : Nat) : String :=
  "/tmp/generated_image_" ++ toString timestamp ++ "_" ++ toString index ++ ".png"

/-- One `fs.writeFileSync` performed by the persistence loop: the `Date.now()`
value read for it, the loop index, the resulting path, and the bytes written. -/
structure WrittenFile where
  timestamp : Nat
  index : Nat
  path : String
  content : List Nat

/-- The persistence loop of the handler: for each decoded buffer, in order,
read the clock (`Date.now()` is called once per iteration, inside the loop)
and write the buffer to `imagePath`. `clock t` is the millisecond value
returned by the `t`-th clock read of this invocation; the loop's iteration
`i` performs the `i`-th read. -/
def persistImages (clock : Nat → Nat) (i : Nat) : List (List Nat) → List WrittenFile
  | [] => []
  | buf :: rest =>
    { timestamp := clock i, index := i, path := imagePath (clock i) i, content := buf }
      :: persistImages clock (i + 1) rest

/-- `args.numberOfImages || 1`. -/
def normNumberOfImages (args : JSValue) : JSValue :=
  jsOr (getField args "numberOfImages") (.num 1)

/-- `args.aspectRatio || "9:16"`. -/
def normAspectRatio (args : JSValue) : JSValue :=
  jsOr (getField args "aspectRatio") (.str "9:16")

/-- `args.sampleImageSize || "2K"`. -/
def normSampleImageSize (args : JSValue) : JSValue :=
  jsOr (getField args "sampleImageSize") (.str "2K")

/-- `args.personGeneration || "allow_adult"`. -/
def normPersonGeneration (args : JSValue) : JSValue :=
  jsOr (getField args "personGeneration") (.str "allow_adult")

/-- The `config` object literal built in the handler: `numberOfImages`
unconditionally, then each of `aspectRatio`, `personGeneration`,
`sampleImageSize` guarded by its truthiness (the guards test the already
defaulted local variables). -/
def buildConfig (args : JSValue) : List (String × JSValue) :=
  [("numberOfImages", normNumberOfImages args)]
  ++ (if jsTruthy (normAspectRatio args) then [("aspectRatio", normAspectRatio args)] else [])
  ++ (if jsTruthy (normPersonGeneration args) then [("personGeneration", normPersonGeneration args)] else [])
  ++ (if jsTruthy (normSampleImageSize args) then [("sampleImageSize", normSampleImageSize args)] else [])

/-- The argument of `this.genAI.models.generateImages`: fixed model id, the
caller's prompt, and the built configuration. -/
def builtUpstreamRequest (args : JSValue) : UpstreamRequest :=
  { model := "imagen-4.0-generate-001"
    prompt := getField args "prompt"
    config := buildConfig args }

/-- The catch block of the handler: an `McpError` is rethrown unchanged; any
other error is wrapped as `InternalError` with the original message appended
to a fixed prefix text. -/
def wrapCaughtError : ThrownError → McpError
  | .mcp e => e
  | .generic message => ⟨.InternalError, "Image generation failed: " ++ message⟩

/-- An incoming `callTool` request: the tool name and the raw arguments. -/
structure CallRequest where
  name : String
  arguments : JSValue

/-- What one handler invocation produced: the protocol outcome (error, or the
successful text content), the upstream calls issued (in order), and the file
writes performed (in order). -/
structure HandlerResult where
  outcome : Except McpError String
  upstreamCalls : List UpstreamRequest
  filesWritten : List WrittenFile

/-- The `CallToolRequestSchema` handler of `index.ts`. `upstream` is the
external image-generation service (it either returns a response or throws),
and `clock` gives the value of the `t`-th `Date.now()` read of this
invocation. -/
def callToolHandler (upstream : UpstreamRequest → Except ThrownError UpstreamResponse)
    (clock : Nat → Nat) (req : CallRequest) : HandlerResult :=
  if req.name ≠ "generate_image" then
    { outcome := .error ⟨.MethodNotFound, "Unknown tool: " ++ req.name⟩
      upstreamCalls := [], filesWritten := [] }
  else if isValidGenerateImageArgs req.arguments = false then
    { outcome := .error ⟨.InvalidParams, "Invalid generate_image arguments"⟩
      upstreamCalls := [], filesWritten := [] }
  else
    let upReq := builtUpstreamRequest req.arguments
    match upstream upReq with
    | .error e =>
      { outcome := .error (wrapCaughtError e), upstreamCalls := [upReq], filesWritten := [] }
    | .ok response =>
      match response.generatedImages with
      | none =>
        { outcome := .error ⟨.InternalError, "No images generated."⟩
          upstreamCalls := [upReq], filesWritten := [] }
      | some imgs =>
        if imgs.length = 0 then
          { outcome := .error ⟨.InternalError, "No images generated."⟩
            upstreamCalls := [upReq], filesWritten := [] }
        else
          let buffers := imgs.map (fun g => bufferFromBase64 g.image.imageBytes)
          let files := persistImages clock 0 buffers
          { outcome := .ok ("Generated images saved to: "
              ++ String.intercalate ", " (files.map (fun f => f.path)))
            upstreamCalls := [upReq], filesWritten := files }

/-- One property of the advertised input schema: its `type`, `description`,
and optional `enum`, `minimum`, `maximum`, `default` entries. -/
structure SchemaProperty where
  type : String
  description : String
  enum : Option (List String)
  minimum : Option Nat
  maximum : Option Nat
  default : Option JSValue

/-- The `inputSchema` of a tool descriptor. -/
structure InputSchema where
  type : String
  properties : List (String × SchemaProperty)
  required : List String

/-- One advertised tool. -/
structure ToolDescriptor where
  name : String
  description : String
  inputSchema : InputSchema

/-- The `ListToolsRequestSchema` handler's result: the single advertised tool
with its schema, transcribed from `index.ts`. -/
def listToolsResult : List ToolDescriptor :=
  [{ name := "generate_image"
     description := "Generate images using Google Gemini Imagen"
     inputSchema :=
       { type := "object"
         properties :=
           [("prompt",
             { type := "string"
               description := "The prompt for image generation"
               enum := none, minimum := none, maximum := none, default := none }),
            ("numberOfImages",
             { type := "number"
               description := "Number of images to generate (1-4)"
               enum := none, minimum := some 1, maximum := some 4, default := none }),
            ("aspectRatio",
             { type := "string"
               description := "Changes the aspect ratio of the generated image"
               enum := some ["1:1", "3:4", "4:3", "9:16", "16:9"]
               minimum := none, maximum := none, default := some (.str "9:16") }),
            ("sampleImageSize",
             { type := "string"
               description := "The size of the generated image (Standard and Ultra models only)"
               enum := some ["1K", "2K"]
               minimum := none, maximum := none, default := some (.str "2K") }),
            ("personGeneration",
             { type := "string"
               description := "Allow the model to generate images of people"
               enum := some ["dont_allow", "allow_adult", "allow_all"]
               minimum := none, maximum := none, default := some (.str "allow_all") })]
         required := ["prompt"] } }]

/-! Shared lemmas about the embedding. -/

theorem isUndefined_iff (v : JSValue) : isUndefined v = true ↔ v = .undefined := by
  cases v <;> simp [isUndefined]

theorem isNull_iff (v : JSValue) : isNull v = true ↔ v = .null := by
  cases v <;> simp [isNull]

theorem jsTypeof_eq_string_iff (v : JSValue) : jsTypeof v = "string" ↔ ∃ s, v = .str s := by
  cases v <;> simp [jsTypeof]

theorem jsTypeof_eq_number_iff (v : JSValue) : jsTypeof v = "number" ↔ ∃ n, v = .num n := by
  cases v <;> simp [jsTypeof]

theorem jsTruthy_jsOr {v d : JSValue} (hd : jsTruthy d = true) : jsTruthy (jsOr v d) = true := by
  unfold jsOr
  split
  · assumption
  · exact hd

theorem normNumberOfImages_truthy (args : JSValue) : jsTruthy (normNumberOfImages args) = true :=
  jsTruthy_jsOr (by decide)

theorem normAspectRatio_truthy (args : JSValue) : jsTruthy (normAspectRatio args) = true :=
  jsTruthy_jsOr (by decide)

theorem normSampleImageSize_truthy (args : JSValue) : jsTruthy (normSampleImageSize args) = true :=
  jsTruthy_jsOr (by decide)

theorem normPersonGeneration_truthy (args : JSValue) : jsTruthy (normPersonGeneration args) = true :=
  jsTruthy_jsOr (by decide)

/-- The truthiness guards on the already defaulted locals always pass, so the
built configuration always holds all four fields, in the source's order. -/
theorem buildConfig_eq (args : JSValue) :
    buildConfig args =
      [("numberOfImages", normNumberOfImages args),
       ("aspectRatio", normAspectRatio args),
       ("personGeneration", normPersonGeneration args),
       ("sampleImageSize", normSampleImageSize args)] := by
  unfold buildConfig
  rw [normAspectRatio_truthy, normPersonGeneration_truthy, normSampleImageSize_truthy]
  simp

/-- What `isValidGenerateImageArgs args = true` gives, field by field. -/
theorem isValid_spec (args : JSValue) (h : isValidGenerateImageArgs args = true) :
    jsTypeof args = "object" ∧ isNull args = false ∧
    (∃ s, getField args "prompt" = JSValue.str s) ∧
    (getField args "numberOfImages" = JSValue.undefined ∨
      ∃ n, getField args "numberOfImages" = JSValue.num n) ∧
    (getField args "aspectRatio" = JSValue.undefined ∨
      ∃ s, getField args "aspectRatio" = JSValue.str s) ∧
    (getField args "sampleImageSize" = JSValue.undefined ∨
      ∃ s, getField args "sampleImageSize" = JSValue.str s) ∧
    (getField args "personGeneration" = JSValue.undefined ∨
      ∃ s, getField args "personGeneration" = JSValue.str s) := by
  simp only [isValidGenerateImageArgs, Bool.and_eq_true, Bool.or_eq_true, beq_iff_eq,
    Bool.not_eq_true'] at h
  obtain ⟨⟨⟨⟨⟨⟨h1, h2⟩, h3⟩, h4⟩, h5⟩, h6⟩, h7⟩ := h
  refine ⟨h1, h2, (jsTypeof_eq_string_iff _).mp h3, ?_, ?_, ?_, ?_⟩
  · rcases h4 with h | h
    · exact Or.inl ((isUndefined_iff _).mp h)
    · exact Or.inr ((jsTypeof_eq_number_iff _).mp h)
  · rcases h5 with h | h
    · exact Or.inl ((isUndefined_iff _).mp h)
    · exact Or.inr ((jsTypeof_eq_string_iff _).mp h)
  · rcases h6 with h | h
    · exact Or.inl ((isUndefined_iff _).mp h)
    · exact Or.inr ((jsTypeof_eq_string_iff _).mp h)
  · rcases h7 with h | h
    · exact Or.inl ((isUndefined_iff _).mp h)
    · exact Or.inr ((jsTypeof_eq_string_iff _).mp h)

theorem persistImages_length (clock : Nat → Nat) (i : Nat) (bufs : List (List Nat)) :
    (persistImages clock i bufs).length = bufs.length := by
  induction bufs generalizing i with
  | nil => rfl
  | cons b rest ih => simp [persistImages, ih]

theorem persistImages_content (clock : Nat → Nat) (i : Nat) (bufs : List (List Nat)) :
    (persistImages clock i bufs).map (fun f => f.content) = bufs := by
  induction bufs generalizing i with
  | nil => rfl
  | cons b rest ih => simp [persistImages, ih]

theorem persistImages_timestamp (clock : Nat → Nat) (i : Nat) (bufs : List (List Nat)) :
    (persistImages clock i bufs).map (fun f => f.timestamp) =
      (List.range bufs.length).map (fun j => clock (i + j)) := by
  induction bufs generalizing i with
  | nil => rfl
  | cons b rest ih =>
    simp only [persistImages, List.map_cons, List.length_cons, List.range_succ_eq_map,
      List.map_map, ih]
    refine congrArg₂ _ (by rw [Nat.add_zero]) ?_
    refine List.map_congr_left fun j _ => ?_
    simp only [Function.comp_apply]
    rw [show i + Nat.succ j = i + 1 + j by omega]

theorem persistImages_index (clock : Nat → Nat) (i : Nat) (bufs : List (List Nat)) :
    (persistImages clock i bufs).map (fun f => f.index) =
      (List.range bufs.length).map (fun j => i + j) := by
  induction bufs generalizing i with
  | nil => rfl
  | cons b rest ih =>
    simp only [persistImages, List.map_cons, List.length_cons, List.range_succ_eq_map,
      List.map_map, ih]
    refine congrArg₂ _ (by rw [Nat.add_zero]) ?_
    refine List.map_congr_left fun j _ => ?_
    simp only [Function.comp_apply]
    rw [show i + Nat.succ j = i + 1 + j by omega]

theorem persistImages_path (clock : Nat → Nat) (i : Nat) (bufs : List (List Nat)) :
    (persistImages clock i bufs).map (fun f => f.path) =
      (List.range bufs.length).map (fun j => imagePath (clock (i + j)) (i + j)) := by
  induction bufs generalizing i with
  | nil => rfl
  | cons b rest ih =>
    simp only [persistImages, List.map_cons, List.length_cons, List.range_succ_eq_map,
      List.map_map, ih]
    refine congrArg₂ _ (by rw [Nat.add_zero]) ?_
    refine List.map_congr_left fun j _ => ?_
    simp only [Function.comp_apply]
    rw [show i + Nat.succ j = i + 1 + j by omega]

theorem persistImages_mem_path (clock : Nat → Nat) (i : Nat) (bufs : List (List Nat))
    (f : WrittenFile) (hf : f ∈ persistImages clock i bufs) :
    f.path = imagePath f.timestamp f.index := by
  induction bufs generalizing i with
  | nil => cases hf
  | cons b rest ih =>
    rcases List.mem_cons.mp hf with h | h
    · subst h; rfl
    · exact ih (i + 1) h

/-! Concrete inputs used by witnesses and counterexamples. -/

/-- A minimal valid arguments object: just a prompt. -/
def exArgsCat : JSValue := .obj [("prompt", .str "A cat")]

/-- A two-payload upstream result list. -/
def exImgs2 : List GeneratedImage := [⟨⟨"AAAA"⟩⟩, ⟨⟨"TWFu"⟩⟩]

/-- An upstream service that always returns the two payloads of `exImgs2`. -/
def exUpstream2 : UpstreamRequest → Except ThrownError UpstreamResponse :=
  fun _ => .ok ⟨some exImgs2⟩

/-- An upstream service that always throws a generic failure. -/
def exUpstreamBoom : UpstreamRequest → Except ThrownError UpstreamResponse :=
  fun _ => .error (.generic "boom")

/-- An upstream service that succeeds with an empty image list. -/
def exUpstreamEmpty : UpstreamRequest → Except ThrownError UpstreamResponse :=
  fun _ => .ok ⟨some []⟩

/-- A clock frozen at millisecond 7. -/
def exClock7 : Nat → Nat := fun _ => 7

/-- A clock that advances by one millisecond at every read. -/
def tickingClock : Nat → Nat := fun i => i

/-- Arguments whose optional fields hold explicit falsy values. -/
def falsyFieldsArgs : JSValue :=
  .obj [("prompt", .str "A cat"), ("aspectRatio", .str ""), ("numberOfImages", .num 0)]

/-- Arguments whose prompt is present but is the empty string. -/
def emptyPromptArgs : JSValue := .obj [("prompt", .str "")]

/-- Valid arguments carrying an unrecognized extra key. -/
def extraKeyArgs : JSValue :=
  .obj [("prompt", .str "A cat"), ("unknownExtra", .bool true), ("numberOfImages", .num 2)]

/-- `extraKeyArgs` with the unrecognized key removed. -/
def strippedArgs : JSValue :=
  .obj [("prompt", .str "A cat"), ("numberOfImages", .num 2)]

/-! Claim theorems. -/

/-- C1: for a successful call whose upstream response holds the non-empty list
`imgs`, exactly `imgs.length` files are written, the i-th write holds the
decoded i-th payload, the i-th path is the one built from the i-th clock read
and index i (so upstream order is preserved), and the returned text lists
exactly those paths — all regardless of the `numberOfImages` in `args`. -/
theorem upstream_count_and_order_preserved
    (upstream : UpstreamRequest → Except ThrownError UpstreamResponse)
    (clock : Nat → Nat) (args : JSValue) (imgs : List GeneratedImage)
    (hvalid : isValidGenerateImageArgs args = true)
    (hup : upstream (builtUpstreamRequest args) = Except.ok ⟨some imgs⟩)
    (hne : imgs ≠ []) :
    (callToolHandler upstream clock ⟨"generate_image", args⟩).filesWritten.length = imgs.length ∧
    (callToolHandler upstream clock ⟨"generate_image", args⟩).filesWritten.map (fun f => f.content)
      = imgs.map (fun g => bufferFromBase64 g.image.imageBytes) ∧
    (callToolHandler upstream clock ⟨"generate_image", args⟩).filesWritten.map (fun f => f.path)
      = (List.range imgs.length).map (fun i => imagePath (clock i) i) ∧
    (callToolHandler upstream clock ⟨"generate_image", args⟩).outcome
      = Except.ok ("Generated images saved to: " ++ String.intercalate ", "
          ((callToolHandler upstream clock ⟨"generate_image", args⟩).filesWritten.map
            (fun f => f.path))) := by
  have hred : callToolHandler upstream clock ⟨"generate_image", args⟩ =
      { outcome := .ok ("Generated images saved to: " ++ String.intercalate ", "
          ((persistImages clock 0
            (imgs.map (fun g => bufferFromBase64 g.image.imageBytes))).map (fun f => f.path)))
        upstreamCalls := [builtUpstreamRequest args]
        filesWritten := persistImages clock 0
          (imgs.map (fun g => bufferFromBase64 g.image.imageBytes)) } := by
    unfold callToolHandler
    simp [hvalid, hup, List.length_eq_zero, hne]
  rw [hred]
  refine ⟨?_, ?_, ?_, rfl⟩
  · rw [persistImages_length, List.length_map]
  · rw [persistImages_content]
  · rw [persistImages_path, List.length_map]
    exact List.map_congr_left fun j _ => by rw [Nat.zero_add]

/-- C1 witness: two upstream payloads with a frozen clock give two writes with
the expected contents and paths. -/
theorem upstream_count_and_order_preserved_witness :
    (callToolHandler exUpstream2 exClock7 ⟨"generate_image", exArgsCat⟩).filesWritten.length = 2 ∧
    (callToolHandler exUpstream2 exClock7 ⟨"generate_image", exArgsCat⟩).filesWritten.map
        (fun f => f.content) = [[0, 0, 0], [77, 97, 110]] ∧
    (callToolHandler exUpstream2 exClock7 ⟨"generate_image", exArgsCat⟩).filesWritten.map
        (fun f => f.path)
      = ["/tmp/generated_image_7_0.png", "/tmp/generated_image_7_1.png"] := by
  have h := upstream_count_and_order_preserved exUpstream2 exClock7 exArgsCat exImgs2
    rfl rfl (by simp [exImgs2])
  refine ⟨h.1, ?_, ?_⟩
  · rw [h.2.1]; rfl
  · rw [h.2.2.1]; rfl

/-- C2: for a validated call, each omitted optional field takes exactly its
documented default before the upstream request is built, and that default is
what the built configuration carries. -/
theorem omitted_optionals_take_documented_defaults (args : JSValue)
    (hvalid : isValidGenerateImageArgs args = true) :
    (getField args "numberOfImages" = JSValue.undefined →
      normNumberOfImages args = JSValue.num 1 ∧
      (builtUpstreamRequest args).config.lookup "numberOfImages" = some (JSValue.num 1)) ∧
    (getField args "aspectRatio" = JSValue.undefined →
      normAspectRatio args = JSValue.str "9:16" ∧
      (builtUpstreamRequest args).config.lookup "aspectRatio" = some (JSValue.str "9:16")) ∧
    (getField args "sampleImageSize" = JSValue.undefined →
      normSampleImageSize args = JSValue.str "2K" ∧
      (builtUpstreamRequest args).config.lookup "sampleImageSize" = some (JSValue.str "2K")) ∧
    (getField args "personGeneration" = JSValue.undefined →
      normPersonGeneration args = JSValue.str "allow_adult" ∧
      (builtUpstreamRequest args).config.lookup "personGeneration"
        = some (JSValue.str "allow_adult")) := by
  have hc : (builtUpstreamRequest args).config =
      [("numberOfImages", normNumberOfImages args),
       ("aspectRatio", normAspectRatio args),
       ("personGeneration", normPersonGeneration args),
       ("sampleImageSize", normSampleImageSize args)] := buildConfig_eq args
  refine ⟨fun h => ?_, fun h => ?_, fun h => ?_, fun h => ?_⟩
  · have hn : normNumberOfImages args = JSValue.num 1 := by
      simp [normNumberOfImages, h, jsOr, jsTruthy]
    exact ⟨hn, by rw [hc, hn]; rfl⟩
  · have hn : normAspectRatio args = JSValue.str "9:16" := by
      simp [normAspectRatio, h, jsOr, jsTruthy]
    exact ⟨hn, by rw [hc, hn]; rfl⟩
  · have hn : normSampleImageSize args = JSValue.str "2K" := by
      simp [normSampleImageSize, h, jsOr, jsTruthy]
    exact ⟨hn, by rw [hc, hn]; rfl⟩
  · have hn : normPersonGeneration args = JSValue.str "allow_adult" := by
      simp [normPersonGeneration, h, jsOr, jsTruthy]
    exact ⟨hn, by rw [hc, hn]; rfl⟩

/-- C2 witness: a prompt-only call takes all four documented defaults. -/
theorem omitted_optionals_take_documented_defaults_witness :
    normNumberOfImages exArgsCat = JSValue.num 1 ∧
    normAspectRatio exArgsCat = JSValue.str "9:16" ∧
    normSampleImageSize exArgsCat = JSValue.str "2K" ∧
    normPersonGeneration exArgsCat = JSValue.str "allow_adult" := by
  have h := omitted_optionals_take_documented_defaults exArgsCat rfl
  exact ⟨(h.1 rfl).1, (h.2.1 rfl).1, (h.2.2.1 rfl).1, (h.2.2.2 rfl).1⟩

/-- An arguments value the validator must reject: `null`, a non-object, a
missing or non-string `prompt`, or a present optional field of the wrong
primitive type. -/
def malformedGenerateImageArgs (args : JSValue) : Prop :=
  args = JSValue.null ∨ jsTypeof args ≠ "object" ∨
  jsTypeof (getField args "prompt") ≠ "string" ∨
  (getField args "numberOfImages" ≠ JSValue.undefined ∧
    jsTypeof (getField args "numberOfImages") ≠ "number") ∨
  (getField args "aspectRatio" ≠ JSValue.undefined ∧
    jsTypeof (getField args "aspectRatio") ≠ "string") ∨
  (getField args "sampleImageSize" ≠ JSValue.undefined ∧
    jsTypeof (getField args "sampleImageSize") ≠ "string") ∨
  (getField args "personGeneration" ≠ JSValue.undefined ∧
    jsTypeof (getField args "personGeneration") ≠ "string")

/-- C3: a malformed arguments object makes the call fail with `InvalidParams`,
with no upstream call issued and no file written. -/
theorem invalid_args_rejected_before_upstream
    (upstream : UpstreamRequest → Except ThrownError UpstreamResponse)
    (clock : Nat → Nat) (args : JSValue)
    (hbad : malformedGenerateImageArgs args) :
    callToolHandler upstream clock ⟨"generate_image", args⟩ =
      { outcome := .error ⟨.InvalidParams, "Invalid generate_image arguments"⟩
        upstreamCalls := [], filesWritten := [] } := by
  have hv : isValidGenerateImageArgs args = false := by
    cases h : isValidGenerateImageArgs args
    · rfl
    · exfalso
      obtain ⟨h1, h2, ⟨s, hs⟩, h4, h5, h6, h7⟩ := isValid_spec args h
      rcases hbad with hb | hb | hb | hb | hb | hb | hb
      · subst hb; simp [isNull] at h2
      · exact hb h1
      · rw [hs] at hb; exact hb rfl
      · rcases h4 with h4 | ⟨n, hn⟩
        · exact hb.1 h4
        · rw [hn] at hb; exact hb.2 rfl
      · rcases h5 with h5 | ⟨t, ht⟩
        · exact hb.1 h5
        · rw [ht] at hb; exact hb.2 rfl
      · rcases h6 with h6 | ⟨t, ht⟩
        · exact hb.1 h6
        · exact hb.2 (ht ▸ rfl)
      · rcases h7 with h7 | ⟨t, ht⟩
        · exact hb.1 h7
        · exact hb.2 (ht ▸ rfl)
  unfold callToolHandler
  simp [hv]

/-- C3 witness: a `null` arguments object is rejected with `InvalidParams`
before the upstream service (which here would return two images) is reached. -/
theorem invalid_args_rejected_before_upstream_witness :
    callToolHandler exUpstream2 exClock7 ⟨"generate_image", JSValue.null⟩ =
      { outcome := .error ⟨.InvalidParams, "Invalid generate_image arguments"⟩
        upstreamCalls := [], filesWritten := [] } :=
  invalid_args_rejected_before_upstream exUpstream2 exClock7 JSValue.null (Or.inl rfl)

/-- C4: an error thrown during the upstream call is caught at the pipeline
boundary; an `McpError` is propagated unchanged (same code and message, no
double wrapping), anything else is re-raised as `InternalError` whose message
contains the original message. -/
theorem thrown_errors_wrapped_unless_protocol_shaped
    (upstream : UpstreamRequest → Except ThrownError UpstreamResponse)
    (clock : Nat → Nat) (args : JSValue) (e : ThrownError)
    (hvalid : isValidGenerateImageArgs args = true)
    (hup : upstream (builtUpstreamRequest args) = Except.error e) :
    (callToolHandler upstream clock ⟨"generate_image", args⟩).outcome
      = .error (wrapCaughtError e) ∧
    (∀ m : McpError, e = ThrownError.mcp m → wrapCaughtError e = m) ∧
    (∀ msg : String, e = ThrownError.generic msg →
      (wrapCaughtError e).code = ErrorCode.InternalError ∧
      ∃ p q : String, (wrapCaughtError e).message = p ++ msg ++ q) := by
  refine ⟨?_, ?_, ?_⟩
  · unfold callToolHandler
    simp [hvalid, hup]
  · rintro m rfl; rfl
  · rintro msg rfl
    refine ⟨rfl, "Image generation failed: ", "", ?_⟩
    simp [wrapCaughtError]

/-- C4 witness: a generic upstream failure with message `boom` surfaces as
`InternalError` with the original message embedded. -/
theorem thrown_errors_wrapped_unless_protocol_shaped_witness :
    (callToolHandler exUpstreamBoom exClock7 ⟨"generate_image", exArgsCat⟩).outcome
      = .error ⟨ErrorCode.InternalError, "Image generation failed: boom"⟩ := by
  have h := thrown_errors_wrapped_unless_protocol_shaped exUpstreamBoom exClock7 exArgsCat
    (.generic "boom") rfl rfl
  exact h.1

/-- C5: a successful upstream call whose image list is missing or empty makes
the call fail with `InternalError` and the message that no images were
generated, with no file written. -/
theorem empty_upstream_result_internal_error_no_writes
    (upstream : UpstreamRequest → Except ThrownError UpstreamResponse)
    (clock : Nat → Nat) (args : JSValue) (gi : Option (List GeneratedImage))
    (hvalid : isValidGenerateImageArgs args = true)
    (hup : upstream (builtUpstreamRequest args) = Except.ok ⟨gi⟩)
    (hempty : gi = none ∨ gi = some []) :
    callToolHandler upstream clock ⟨"generate_image", args⟩ =
      { outcome := .error ⟨.InternalError, "No images generated."⟩
        upstreamCalls := [builtUpstreamRequest args], filesWritten := [] } := by
  rcases hempty with rfl | rfl <;>
  · unfold callToolHandler
    simp [hvalid, hup]

/-- C5 witness: an upstream success carrying the empty list fails with
`InternalError` and writes nothing. -/
theorem empty_upstream_result_internal_error_no_writes_witness :
    callToolHandler exUpstreamEmpty exClock7 ⟨"generate_image", exArgsCat⟩ =
      { outcome := .error ⟨.InternalError, "No images generated."⟩
        upstreamCalls := [builtUpstreamRequest exArgsCat], filesWritten := [] } :=
  empty_upstream_result_internal_error_no_writes exUpstreamEmpty exClock7 exArgsCat
    (some []) rfl rfl (Or.inr rfl)

/-- C6 counterexample: with `aspectRatio` given as the explicit empty string
and `numberOfImages` as zero, the built configuration does not omit those
fields — the `|| default` assignments have already replaced the falsy values
with the documented defaults, which the truthiness guards then pass. -/
theorem falsy_fields_forwarded_counterexample :
    isValidGenerateImageArgs falsyFieldsArgs = true ∧
    (builtUpstreamRequest falsyFieldsArgs).config.lookup "aspectRatio"
      = some (JSValue.str "9:16") ∧
    (builtUpstreamRequest falsyFieldsArgs).config.lookup "aspectRatio" ≠ none ∧
    (builtUpstreamRequest falsyFieldsArgs).config.lookup "numberOfImages"
      = some (JSValue.num 1) := by
  refine ⟨rfl, rfl, ?_, rfl⟩
  intro h
  rw [show (builtUpstreamRequest falsyFieldsArgs).config.lookup "aspectRatio"
      = some (JSValue.str "9:16") from rfl] at h
  cases h

/-- C6 amended: the configuration forwarded upstream always contains all four
fields — a falsy provided value (empty string, or `numberOfImages` zero) is
replaced by the documented default before the truthiness guards run, so the
guards always pass and no field is ever omitted. -/
theorem config_always_contains_all_four_fields (args : JSValue)
    (hvalid : isValidGenerateImageArgs args = true) :
    (builtUpstreamRequest args).config =
      [("numberOfImages", normNumberOfImages args),
       ("aspectRatio", normAspectRatio args),
       ("personGeneration", normPersonGeneration args),
       ("sampleImageSize", normSampleImageSize args)] ∧
    jsTruthy (normNumberOfImages args) = true ∧
    jsTruthy (normAspectRatio args) = true ∧
    jsTruthy (normPersonGeneration args) = true ∧
    jsTruthy (normSampleImageSize args) = true :=
  ⟨buildConfig_eq args, normNumberOfImages_truthy args, normAspectRatio_truthy args,
   normPersonGeneration_truthy args, normSampleImageSize_truthy args⟩

/-- C6 amended witness: the falsy-field arguments yield a configuration with
all four fields present. -/
theorem config_always_contains_all_four_fields_witness :
    (builtUpstreamRequest falsyFieldsArgs).config =
      [("numberOfImages", normNumberOfImages falsyFieldsArgs),
       ("aspectRatio", normAspectRatio falsyFieldsArgs),
       ("personGeneration", normPersonGeneration falsyFieldsArgs),
       ("sampleImageSize", normSampleImageSize falsyFieldsArgs)] ∧
    jsTruthy (normNumberOfImages falsyFieldsArgs) = true ∧
    jsTruthy (normAspectRatio falsyFieldsArgs) = true ∧
    jsTruthy (normPersonGeneration falsyFieldsArgs) = true ∧
    jsTruthy (normSampleImageSize falsyFieldsArgs) = true :=
  config_always_contains_all_four_fields falsyFieldsArgs rfl

/-- C7 counterexample: `Date.now()` is read inside the write loop, once per
file, so under a clock that advances by one millisecond per read the two files
of a single invocation carry timestamps 0 and 1 — no single shared timestamp
exists. -/
theorem per_iteration_timestamp_counterexample :
    (callToolHandler exUpstream2 tickingClock ⟨"generate_image", exArgsCat⟩).filesWritten.map
        (fun f => f.timestamp) = [0, 1] ∧
    ¬ ∃ t : Nat,
      (callToolHandler exUpstream2 tickingClock ⟨"generate_image", exArgsCat⟩).filesWritten.map
        (fun f => f.timestamp) = [t, t] := by
  refine ⟨rfl, ?_⟩
  rintro ⟨t, ht⟩
  rw [show (callToolHandler exUpstream2 tickingClock
      ⟨"generate_image", exArgsCat⟩).filesWritten.map (fun f => f.timestamp)
      = [0, 1] from rfl] at ht
  simp only [List.cons.injEq, and_true] at ht
  omega

/-- C7 amended: the i-th file of an invocation is written at
`/tmp/generated_image_<t_i>_<i>.png` where `t_i` is the clock reading taken at
the i-th write; the indices are exactly 0..N-1, every path is built from that
file's own timestamp and index, and whenever the clock does not advance during
the loop all files of the invocation do share one timestamp. -/
theorem files_named_with_per_write_clock
    (upstream : UpstreamRequest → Except ThrownError UpstreamResponse)
    (clock : Nat → Nat) (args : JSValue) (imgs : List GeneratedImage)
    (hvalid : isValidGenerateImageArgs args = true)
    (hup : upstream (builtUpstreamRequest args) = Except.ok ⟨some imgs⟩)
    (hne : imgs ≠ []) :
    (callToolHandler upstream clock ⟨"generate_image", args⟩).filesWritten.map
        (fun f => f.timestamp) = (List.range imgs.length).map clock ∧
    (callToolHandler upstream clock ⟨"generate_image", args⟩).filesWritten.map
        (fun f => f.index) = List.range imgs.length ∧
    (∀ f ∈ (callToolHandler upstream clock ⟨"generate_image", args⟩).filesWritten,
      f.path = imagePath f.timestamp f.index) ∧
    ((∀ i j, clock i = clock j) →
      ∀ f ∈ (callToolHandler upstream clock ⟨"generate_image", args⟩).filesWritten,
      ∀ g ∈ (callToolHandler upstream clock ⟨"generate_image", args⟩).filesWritten,
      f.timestamp = g.timestamp) := by
  have hred : (callToolHandler upstream clock ⟨"generate_image", args⟩).filesWritten =
      persistImages clock 0 (imgs.map (fun g => bufferFromBase64 g.image.imageBytes)) := by
    unfold callToolHandler
    simp [hvalid, hup, List.length_eq_zero, hne]
  have hts : (callToolHandler upstream clock ⟨"generate_image", args⟩).filesWritten.map
      (fun f => f.timestamp) = (List.range imgs.length).map clock := by
    rw [hred, persistImages_timestamp, List.length_map]
    exact List.map_congr_left fun j _ => by rw [Nat.zero_add]
  refine ⟨hts, ?_, ?_, ?_⟩
  · rw [hred, persistImages_index, List.length_map]
    simp
  · intro f hf
    rw [hred] at hf
    exact persistImages_mem_path clock 0 _ f hf
  · intro hconst f hf g hg
    have hfm : f.timestamp ∈ (List.range imgs.length).map clock := by
      rw [← hts]; exact List.mem_map_of_mem _ hf
    have hgm : g.timestamp ∈ (List.range imgs.length).map clock := by
      rw [← hts]; exact List.mem_map_of_mem _ hg
    obtain ⟨i, -, hi⟩ := List.mem_map.mp hfm
    obtain ⟨j, -, hj⟩ := List.mem_map.mp hgm
    rw [← hi, ← hj]
    exact hconst i j

/-- C7 amended witness: under a frozen clock the two files of one invocation
share the timestamp, each path is built from its own timestamp and index, and
the indices are 0 and 1. -/
theorem files_named_with_per_write_clock_witness :
    (callToolHandler exUpstream2 exClock7 ⟨"generate_image", exArgsCat⟩).filesWritten.map
        (fun f => f.timestamp) = [7, 7] ∧
    (callToolHandler exUpstream2 exClock7 ⟨"generate_image", exArgsCat⟩).filesWritten.map
        (fun f => f.index) = [0, 1] ∧
    ∀ f ∈ (callToolHandler exUpstream2 exClock7 ⟨"generate_image", exArgsCat⟩).filesWritten,
      f.path = imagePath f.timestamp f.index := by
  have h := files_named_with_per_write_clock exUpstream2 exClock7 exArgsCat exImgs2
    rfl rfl (by simp [exImgs2])
  refine ⟨?_, ?_, h.2.2.1⟩
  · rw [h.1]; rfl
  · rw [h.2.1]; rfl

/-- C8 counterexample: a present-but-empty `prompt` passes validation — the
validator checks only that `prompt` is a string — and the empty prompt is
forwarded verbatim in the built upstream request. -/
theorem empty_prompt_passes_validation_counterexample :
    isValidGenerateImageArgs emptyPromptArgs = true ∧
    (builtUpstreamRequest emptyPromptArgs).prompt = JSValue.str "" :=
  ⟨rfl, rfl⟩

/-- C8 amended: every validated call has a `prompt` that is text (possibly
empty), forwarded unchanged into the upstream request; non-emptiness is not
enforced. -/
theorem validated_prompt_is_string_possibly_empty (args : JSValue)
    (hvalid : isValidGenerateImageArgs args = true) :
    ∃ s : String, getField args "prompt" = JSValue.str s ∧
      (builtUpstreamRequest args).prompt = JSValue.str s := by
  obtain ⟨-, -, ⟨s, hs⟩, -⟩ := isValid_spec args hvalid
  exact ⟨s, hs, hs⟩

/-- C8 amended witness: the prompt-only arguments yield a string prompt. -/
theorem validated_prompt_is_string_possibly_empty_witness :
    ∃ s : String, getField exArgsCat "prompt" = JSValue.str s ∧
      (builtUpstreamRequest exArgsCat).prompt = JSValue.str s :=
  validated_prompt_is_string_possibly_empty exArgsCat rfl

/-- C9: `listTools()` advertises exactly one tool, `generate_image`, but the
advertised default of `personGeneration` is `allow_all`, while the default the
handler actually applies (and the one the documentation states) is
`allow_adult` — the schema contradicts the code's own defaulting. -/
theorem advertised_personGeneration_default_contradicts_applied :
    listToolsResult.length = 1 ∧
    listToolsResult.map (fun d => d.name) = ["generate_image"] ∧
    (listToolsResult.head?.bind
        (fun d => d.inputSchema.properties.lookup "personGeneration")).map
        (fun p => p.default) = some (some (JSValue.str "allow_all")) ∧
    normPersonGeneration exArgsCat = JSValue.str "allow_adult" ∧
    JSValue.str "allow_all" ≠ JSValue.str "allow_adult" := by
  refine ⟨rfl, rfl, rfl, rfl, ?_⟩
  intro h
  simp at h

/-- C10: validation accepts any non-null object whose `prompt` is a string
and whose known optional fields, when present, are well typed — whatever
other keys the object carries; and the upstream request depends only on the
five known fields, whose configuration keys are drawn from the four known
configuration names, so unrecognized keys are neither rejected nor forwarded. -/
theorem unknown_extra_fields_ignored
    (a b : JSValue)
    (hobj : jsTypeof a = "object") (hnn : isNull a = false)
    (hp : ∃ s, getField a "prompt" = JSValue.str s)
    (hn : getField a "numberOfImages" = JSValue.undefined ∨
      ∃ n, getField a "numberOfImages" = JSValue.num n)
    (har : getField a "aspectRatio" = JSValue.undefined ∨
      ∃ s, getField a "aspectRatio" = JSValue.str s)
    (hsz : getField a "sampleImageSize" = JSValue.undefined ∨
      ∃ s, getField a "sampleImageSize" = JSValue.str s)
    (hpg : getField a "personGeneration" = JSValue.undefined ∨
      ∃ s, getField a "personGeneration" = JSValue.str s)
    (hagree : ∀ k ∈ ["prompt", "numberOfImages", "aspectRatio",
      "sampleImageSize", "personGeneration"], getField a k = getField b k) :
    isValidGenerateImageArgs a = true ∧
    builtUpstreamRequest a = builtUpstreamRequest b ∧
    ∀ kv ∈ (builtUpstreamRequest a).config,
      kv.1 ∈ ["numberOfImages", "aspectRatio", "personGeneration", "sampleImageSize"] := by
  obtain ⟨s, hs⟩ := hp
  refine ⟨?_, ?_, ?_⟩
  · simp only [isValidGenerateImageArgs, Bool.and_eq_true, Bool.or_eq_true, beq_iff_eq,
      Bool.not_eq_true']
    refine ⟨⟨⟨⟨⟨⟨hobj, hnn⟩, by rw [hs]; rfl⟩, ?_⟩, ?_⟩, ?_⟩, ?_⟩
    · rcases hn with h | ⟨n, h⟩ <;> rw [h]
      · exact Or.inl rfl
      · exact Or.inr rfl
    · rcases har with h | ⟨t, h⟩ <;> rw [h]
      · exact Or.inl rfl
      · exact Or.inr rfl
    · rcases hsz with h | ⟨t, h⟩ <;> rw [h]
      · exact Or.inl rfl
      · exact Or.inr rfl
    · rcases hpg with h | ⟨t, h⟩ <;> rw [h]
      · exact Or.inl rfl
      · exact Or.inr rfl
  · have hpr := hagree "prompt" (by simp)
    have h1 := hagree "numberOfImages" (by simp)
    have h2 := hagree "aspectRatio" (by simp)
    have h3 := hagree "sampleImageSize" (by simp)
    have h4 := hagree "personGeneration" (by simp)
    unfold builtUpstreamRequest buildConfig normNumberOfImages normAspectRatio
      normSampleImageSize normPersonGeneration
    rw [hpr, h1, h2, h3, h4]
  · intro kv hkv
    rw [show (builtUpstreamRequest a).config = buildConfig a from rfl,
      buildConfig_eq] at hkv
    simp only [List.mem_cons, List.not_mem_nil, or_false] at hkv
    rcases hkv with rfl | rfl | rfl | rfl <;> simp

/-- C10 witness: arguments carrying an unrecognized `unknownExtra` key pass
validation and build the same upstream request as the same arguments with the
extra key removed. -/
theorem unknown_extra_fields_ignored_witness :
    isValidGenerateImageArgs extraKeyArgs = true ∧
    builtUpstreamRequest extraKeyArgs = builtUpstreamRequest strippedArgs ∧
    ∀ kv ∈ (builtUpstreamRequest extraKeyArgs).config,
      kv.1 ∈ ["numberOfImages", "aspectRatio", "personGeneration", "sampleImageSize"] :=
  unknown_extra_fields_ignored extraKeyArgs strippedArgs rfl rfl ⟨"A cat", rfl⟩
    (Or.inr ⟨2, rfl⟩) (Or.inl rfl) (Or.inl rfl) (Or.inl rfl)
    (by intro k hk; fin_cases hk <;> rfl)

end GeminiImagen
